import Mathlib

/-!
Verification development for the taipo chorded-input engine (src/taipo.py).

The definitions below are a shallow embedding of the Python source:

* the wraparound tick arithmetic (`ticks_add`, `ticks_diff`, `ticks_less`);
* the per-hand mutable `State` (class State) and the `Taipo` module
  configuration (class Taipo: `tap_timeout`, `sticky_timeout`, `keymap`);
* the combination table `taipoKeymap` (the dict built in `Taipo.__init__`),
  with Python-dict lookup semantics (last binding for a duplicated key wins);
* the event handlers `process_key` (press/release), `after_matrix_scan`
  (periodic hold-deadline check) and `handle_key` (dispatch to the output
  sink), with the output sink calls (`add_key`, `remove_key`, `tap_key`)
  reified as an `OutEvent` list.

Machine time (`ticks_ms()`) is passed in explicitly as the `now` argument of
each event, and whole input sequences are executed by `Taipo.run`.
-/

set_option maxRecDepth 4000

/-- KMK keycode values as they are distinguished by taipo.py: the null key
`KC.NO`, plain named keycodes, modifier-wrapped keycodes such as
`KC.LSFT(KC.O)`, macros (the only keys with a `blocking` attribute), the six
bare modifier keys tested in `handle_key`, the taipo layer and composite
modifier keycodes registered in `taipo_keycodes`, and the one-shot sticky
wrapper `KC.OS(mod, tap_time=...)` used when a modifier chord is tapped. -/
inductive Kc where
  | NO
  | key (name : String)
  | withMod (m : String) (k : Kc)
  | macroKey (payload : String)
  | LCTL
  | LSFT
  | LGUI
  | LALT
  | RALT
  | RGUI
  | LAYER0
  | LAYER1
  | LAYER2
  | LAYER3
  | MOD_GA
  | MOD_GC
  | MOD_GS
  | MOD_AC
  | MOD_AS
  | MOD_CS
  | MOD_GAC
  | MOD_GAS
  | MOD_GCS
  | MOD_ACS
  | MOD_GACS
  | OS (k : Kc) (tap_time : Nat)
deriving DecidableEq

/-- One call to the output key-state sink (the `keyboard` object). -/
inductive OutEvent where
  | add_key (k : Kc)
  | remove_key (k : Kc)
  | tap_key (k : Kc)
deriving DecidableEq

/-- `_TICKS_PERIOD = const(1<<29)`. -/
def TICKS_PERIOD : Nat := 1 <<< 29

/-- `_TICKS_MAX = const(_TICKS_PERIOD-1)`. -/
def TICKS_MAX : Nat := TICKS_PERIOD - 1

/-- `_TICKS_HALFPERIOD = const(_TICKS_PERIOD//2)`. -/
def TICKS_HALFPERIOD : Nat := TICKS_PERIOD / 2

/-- `ticks_add`: add a delta to a base number of ticks, wrapping at 2^29 ms. -/
def ticks_add (ticks delta : Nat) : Nat := (ticks + delta) % TICKS_PERIOD

/-- `ticks_diff`: signed difference of two tick values.  On Python ints,
`x & _TICKS_MAX` (with `_TICKS_MAX = 2^29 - 1`) is exactly `x mod 2^29` with a
nonnegative result, which is what `Int.emod` by `2^29` computes here. -/
def ticks_diff (ticks1 ticks2 : Nat) : Int :=
  let diff : Int := ((ticks1 : Int) - (ticks2 : Int)) % (TICKS_PERIOD : Int)
  ((diff + (TICKS_HALFPERIOD : Int)) % (TICKS_PERIOD : Int)) - (TICKS_HALFPERIOD : Int)

/-- `ticks_less`: true if `ticks1` is before `ticks2` in wraparound order. -/
def ticks_less (ticks1 ticks2 : Nat) : Bool := ticks_diff ticks1 ticks2 < 0

/-- Per-hand mutable state (class `State`), in its `reset()` field order:
`combo` (pressed-actuator bitmask), `timer` (hold deadline; `0` doubles as the
"no deadline pending" sentinel), `keycode` (the determined key), `hold`,
`hold_handled`. -/
structure State where
  combo : Nat
  timer : Nat
  keycode : Kc
  hold : Bool
  hold_handled : Bool
deriving DecidableEq

/-- `State.reset()`: the initial / post-resolution state. -/
def State.reset : State :=
  { combo := 0, timer := 0, keycode := Kc.NO, hold := false, hold_handled := false }

/-- Bit constants from the source: `o4 = const(1 << 0)` ... `i0 = const(1 << 9)`. -/
def o4 : Nat := 1 <<< 0

/-- `o3 = const(1 << 1)`. -/
def o3 : Nat := 1 <<< 1

/-- `o2 = const(1 << 2)`. -/
def o2 : Nat := 1 <<< 2

/-- `o1 = const(1 << 3)`. -/
def o1 : Nat := 1 <<< 3

/-- `o0 = const(1 << 4)`. -/
def o0 : Nat := 1 <<< 4

/-- `i4 = const(1 << 5)`. -/
def i4 : Nat := 1 <<< 5

/-- `i3 = const(1 << 6)`. -/
def i3 : Nat := 1 <<< 6

/-- `i2 = const(1 << 7)`. -/
def i2 : Nat := 1 <<< 7

/-- `i1 = const(1 << 8)`. -/
def i1 : Nat := 1 <<< 8

/-- `i0 = const(1 << 9)`. -/
def i0 : Nat := 1 <<< 9

/-- The combination table `self.keymap` from `Taipo.__init__`, transcribed
entry by entry in source order (English UK layout).  Modifier-wrapped keys
such as `KC.LSFT(KC.O)` become `Kc.withMod "LSFT" (Kc.key "O")`; `KC.MACRO`
arguments are recorded as an uninterpreted payload string (the engine never
inspects a macro body, only its `blocking` attribute). -/
def taipoKeymap : List (Nat × Kc) := [
  (o4, Kc.key "BSPC"),
  (i4, Kc.key "SPC"),
  (o4 ||| i4, Kc.NO),
  (o3, Kc.key "O"),
  (o3 ||| o4, Kc.withMod "LSFT" (Kc.key "O")),
  (o3 ||| i4, Kc.macroKey "o "),
  (o3 ||| o4 ||| i4, Kc.key "RCBR"),
  (o2, Kc.key "I"),
  (o2 ||| o4, Kc.withMod "LSFT" (Kc.key "I")),
  (o2 ||| i4, Kc.macroKey "i "),
  (o2 ||| o4 ||| i4, Kc.key "RBRC"),
  (o1, Kc.key "N"),
  (o1 ||| o4, Kc.withMod "LSFT" (Kc.key "N")),
  (o1 ||| i4, Kc.macroKey "n "),
  (o1 ||| o4 ||| i4, Kc.key "RPRN"),
  (o0, Kc.key "S"),
  (o0 ||| o4, Kc.withMod "LSFT" (Kc.key "S")),
  (o0 ||| i4, Kc.macroKey "s "),
  (o0 ||| o4 ||| i4, Kc.key "RABK"),
  (i3, Kc.key "A"),
  (i3 ||| o4, Kc.withMod "LSFT" (Kc.key "A")),
  (i3 ||| i4, Kc.macroKey "a "),
  (i3 ||| o4 ||| i4, Kc.key "LCBR"),
  (i2, Kc.key "E"),
  (i2 ||| o4, Kc.withMod "LSFT" (Kc.key "E")),
  (i2 ||| i4, Kc.macroKey "e "),
  (i2 ||| o4 ||| i4, Kc.key "LBRC"),
  (i1, Kc.key "T"),
  (i1 ||| o4, Kc.withMod "LSFT" (Kc.key "T")),
  (i1 ||| i4, Kc.macroKey "t "),
  (i1 ||| o4 ||| i4, Kc.key "LPRN"),
  (i0, Kc.key "R"),
  (i0 ||| o4, Kc.withMod "LSFT" (Kc.key "R")),
  (i0 ||| i4, Kc.macroKey "r "),
  (i0 ||| o4 ||| i4, Kc.key "LABK"),
  (o2 ||| o3, Kc.key "C"),
  (o2 ||| o3 ||| o4, Kc.withMod "LSFT" (Kc.key "C")),
  (o2 ||| o3 ||| i4, Kc.macroKey "c "),
  (o2 ||| o3 ||| o4 ||| i4, Kc.withMod "LCTL" (Kc.key "C")),
  (o1 ||| o3, Kc.key "F"),
  (o1 ||| o3 ||| o4, Kc.withMod "LSFT" (Kc.key "F")),
  (o1 ||| o3 ||| i4, Kc.macroKey "f "),
  (o1 ||| o3 ||| o4 ||| i4, Kc.withMod "LCTL" (Kc.key "F")),
  (o0 ||| o3, Kc.key "B"),
  (o0 ||| o3 ||| o4, Kc.withMod "LSFT" (Kc.key "B")),
  (o0 ||| o3 ||| i4, Kc.macroKey "b "),
  (o0 ||| o3 ||| o4 ||| i4, Kc.withMod "LCTL" (Kc.key "A")),
  (i2 ||| i3, Kc.key "U"),
  (i2 ||| i3 ||| o4, Kc.withMod "LSFT" (Kc.key "U")),
  (i2 ||| i3 ||| i4, Kc.macroKey "u "),
  (i2 ||| i3 ||| o4 ||| i4, Kc.NO),
  (i1 ||| i3, Kc.key "P"),
  (i1 ||| i3 ||| o4, Kc.withMod "LSFT" (Kc.key "P")),
  (i1 ||| i3 ||| i4, Kc.macroKey "p "),
  (i1 ||| i3 ||| o4 ||| i4, Kc.withMod "LCTL" (Kc.key "E")),
  (i0 ||| i3, Kc.key "L"),
  (i0 ||| i3 ||| o4, Kc.withMod "LSFT" (Kc.key "L")),
  (i0 ||| i3 ||| i4, Kc.macroKey "l "),
  (i0 ||| i3 ||| o4 ||| i4, Kc.NO),
  (o1 ||| o2, Kc.key "G"),
  (o1 ||| o2 ||| o4, Kc.withMod "LSFT" (Kc.key "G")),
  (o1 ||| o2 ||| i4, Kc.macroKey "g "),
  (o1 ||| o2 ||| o4 ||| i4, Kc.NO),
  (o0 ||| o2, Kc.key "Z"),
  (o0 ||| o2 ||| o4, Kc.withMod "LSFT" (Kc.key "Z")),
  (o0 ||| o2 ||| i4, Kc.macroKey "z "),
  (o0 ||| o2 ||| o4 ||| i4, Kc.withMod "LCTL" (Kc.key "Z")),
  (i1 ||| i2, Kc.key "H"),
  (i1 ||| i2 ||| o4, Kc.withMod "LSFT" (Kc.key "H")),
  (i1 ||| i2 ||| i4, Kc.macroKey "h "),
  (i1 ||| i2 ||| o4 ||| i4, Kc.NO),
  (i0 ||| i2, Kc.key "Q"),
  (i0 ||| i2 ||| o4, Kc.withMod "LSFT" (Kc.key "Q")),
  (i0 ||| i2 ||| i4, Kc.macroKey "q "),
  (i0 ||| i2 ||| o4 ||| i4, Kc.NO),
  (o0 ||| o1, Kc.key "Y"),
  (o0 ||| o1 ||| o4, Kc.withMod "LSFT" (Kc.key "Y")),
  (o0 ||| o1 ||| i4, Kc.macroKey "y "),
  (o0 ||| o1 ||| o4 ||| i4, Kc.withMod "LCTL" (Kc.key "Y")),
  (i0 ||| i1, Kc.key "D"),
  (i0 ||| i1 ||| o4, Kc.withMod "LSFT" (Kc.key "D")),
  (i0 ||| i1 ||| i4, Kc.macroKey "d "),
  (i0 ||| i1 ||| o4 ||| i4, Kc.NO),
  (i2 ||| o3, Kc.key "X"),
  (i2 ||| o3 ||| o4, Kc.withMod "LSFT" (Kc.key "X")),
  (i2 ||| o3 ||| i4, Kc.macroKey "x "),
  (i2 ||| o3 ||| o4 ||| i4, Kc.withMod "LCTL" (Kc.key "X")),
  (i1 ||| o3, Kc.key "V"),
  (i1 ||| o3 ||| o4, Kc.withMod "LSFT" (Kc.key "V")),
  (i1 ||| o3 ||| i4, Kc.macroKey "v "),
  (i1 ||| o3 ||| o4 ||| i4, Kc.withMod "LCTL" (Kc.key "V")),
  (i0 ||| o3, Kc.key "QUOTE"),
  (i0 ||| o3 ||| o4, Kc.key "GRAVE"),
  (i0 ||| o3 ||| i4, Kc.key "AT"),
  (i0 ||| o3 ||| o4 ||| i4, Kc.macroKey "deg"),
  (o2 ||| i3, Kc.key "UNDS"),
  (o2 ||| i3 ||| o4, Kc.key "PLUS"),
  (o2 ||| i3 ||| i4, Kc.key "MINS"),
  (o2 ||| i3 ||| o4 ||| i4, Kc.macroKey "plusminus"),
  (o1 ||| i3, Kc.withMod "LSFT" (Kc.key "NONUS_BSLASH")),
  (o1 ||| i3 ||| o4, Kc.key "NONUS_BSLASH"),
  (o1 ||| i3 ||| i4, Kc.key "SLSH"),
  (o1 ||| i3 ||| o4 ||| i4, Kc.key "PERC"),
  (o0 ||| i3, Kc.key "COMMA"),
  (o0 ||| i3 ||| o4, Kc.key "SCOLON"),
  (o0 ||| i3 ||| i4, Kc.key "DOT"),
  (o0 ||| i3 ||| o4 ||| i4, Kc.key "COLON"),
  (i1 ||| o2, Kc.key "QUES"),
  (i1 ||| o2 ||| o4, Kc.key "DQUO"),
  (i1 ||| o2 ||| i4, Kc.key "EXCLAIM"),
  (i1 ||| o2 ||| o4 ||| i4, Kc.key "AMPERSAND"),
  (i0 ||| o2, Kc.key "J"),
  (i0 ||| o2 ||| o4, Kc.withMod "LSFT" (Kc.key "J")),
  (i0 ||| o2 ||| i4, Kc.macroKey "j "),
  (i0 ||| o2 ||| o4 ||| i4, Kc.NO),
  (o1 ||| i2, Kc.key "EQUAL"),
  (o1 ||| i2 ||| o4, Kc.key "TILDE"),
  (o1 ||| i2 ||| i4, Kc.macroKey "approx"),
  (o1 ||| i2 ||| o4 ||| i4, Kc.macroKey "noteq"),
  (o0 ||| i2, Kc.key "K"),
  (o0 ||| i2 ||| o4, Kc.withMod "LSFT" (Kc.key "K")),
  (o0 ||| i2 ||| i4, Kc.macroKey "k "),
  (o0 ||| i2 ||| o4 ||| i4, Kc.NO),
  (i0 ||| o1, Kc.key "W"),
  (i0 ||| o1 ||| o4, Kc.withMod "LSFT" (Kc.key "W")),
  (i0 ||| o1 ||| i4, Kc.macroKey "w "),
  (i0 ||| o1 ||| o4 ||| i4, Kc.NO),
  (o0 ||| i1, Kc.key "M"),
  (o0 ||| i1 ||| o4, Kc.withMod "LSFT" (Kc.key "M")),
  (o0 ||| i1 ||| i4, Kc.macroKey "m "),
  (o0 ||| i1 ||| o4 ||| i4, Kc.NO),
  (o1 ||| o2 ||| o3, Kc.key "TAB"),
  (o1 ||| o2 ||| o3 ||| o4, Kc.withMod "LSFT" (Kc.key "TAB")),
  (o1 ||| o2 ||| o3 ||| i4, Kc.withMod "LALT" (Kc.key "TAB")),
  (o1 ||| o2 ||| o3 ||| o4 ||| i4, Kc.withMod "LGUI" (Kc.key "TAB")),
  (o0 ||| o1 ||| o2, Kc.key "DEL"),
  (o0 ||| o1 ||| o2 ||| o4, Kc.withMod "LCTRL" (Kc.key "BSPC")),
  (o0 ||| o1 ||| o2 ||| i4, Kc.withMod "LCTRL" (Kc.key "DEL")),
  (i1 ||| i2 ||| i3, Kc.key "ENTER"),
  (i1 ||| i2 ||| i3 ||| o4, Kc.NO),
  (i1 ||| i2 ||| i3 ||| i4, Kc.RGUI),
  (i1 ||| i2 ||| i3 ||| o4 ||| i4, Kc.NO),
  (i0 ||| i2 ||| i3, Kc.key "LEFT"),
  (i0 ||| i2 ||| i3 ||| i4, Kc.key "RIGHT"),
  (i0 ||| i1 ||| i3, Kc.withMod "LGUI" (Kc.key "D")),
  (i0 ||| i1 ||| i2, Kc.key "ESC"),
  (o1 ||| i2 ||| o3, Kc.key "HASH"),
  (o1 ||| i2 ||| o3 ||| o4, Kc.withMod "RGUI" (Kc.key "N4")),
  (o1 ||| i2 ||| o3 ||| i4, Kc.key "DOLLAR"),
  (o0 ||| i1 ||| o2, Kc.key "MUTE"),
  (o0 ||| i1 ||| o2 ||| o4, Kc.key "VOLD"),
  (o0 ||| i1 ||| o2 ||| i4, Kc.key "VOLU"),
  (o0 ||| i1 ||| o2 ||| o4 ||| i4, Kc.NO),
  (i1 ||| o2 ||| i3, Kc.key "CIRC"),
  (i0 ||| o1 ||| i2, Kc.key "PSCREEN"),
  (i1 ||| o2 ||| o3, Kc.withMod "LGUI" (Kc.key "E")),
  (i0 ||| o2 ||| o3, Kc.key "UP"),
  (i0 ||| o2 ||| o3 ||| i4, Kc.key "DOWN"),
  (i0 ||| o1 ||| o3, Kc.macroKey "toggle_drive"),
  (i0 ||| o1 ||| o2, Kc.key "PGUP"),
  (i0 ||| o1 ||| o2 ||| i4, Kc.withMod "LCTRL" (Kc.key "PGUP")),
  (o1 ||| i2 ||| i3, Kc.key "HOME"),
  (o1 ||| i2 ||| i3 ||| i4, Kc.withMod "LCTRL" (Kc.key "HOME")),
  (o0 ||| i1 ||| i2, Kc.key "PGDN"),
  (o0 ||| i1 ||| i2 ||| i4, Kc.withMod "LCTRL" (Kc.key "PGDN")),
  (i1 ||| i2 ||| o3, Kc.key "END"),
  (i1 ||| i2 ||| o3 ||| i4, Kc.withMod "LCTRL" (Kc.key "END")),
  (i0 ||| i1 ||| o2, Kc.key "INSERT"),
  (o1 ||| o2 ||| i3, Kc.key "BSLS"),
  (o1 ||| o2 ||| i3 ||| i4, Kc.macroKey "BSLS SPC"),
  (o0 ||| o1 ||| i2, Kc.key "NUMLOCK"),
  (o0 ||| o1 ||| i2 ||| o4, Kc.key "SCROLLLOCK"),
  (o0 ||| o1 ||| i2 ||| i4, Kc.key "CAPSLOCK"),
  (o0 ||| o1 ||| o2 ||| o3, Kc.key "N0"),
  (o0 ||| o1 ||| o2 ||| o3 ||| o4, Kc.key "P0"),
  (o0 ||| o1 ||| o2 ||| o3 ||| i4, Kc.key "F20"),
  (i0 ||| o1 ||| o2 ||| o3, Kc.key "N1"),
  (i0 ||| o1 ||| o2 ||| o3 ||| o4, Kc.key "P1"),
  (i0 ||| o1 ||| o2 ||| o3 ||| i4, Kc.key "F1"),
  (o0 ||| i1 ||| o2 ||| o3, Kc.key "N2"),
  (o0 ||| i1 ||| o2 ||| o3 ||| o4, Kc.key "P2"),
  (o0 ||| i1 ||| o2 ||| o3 ||| i4, Kc.key "F2"),
  (i0 ||| i1 ||| o2 ||| o3, Kc.key "N3"),
  (i0 ||| i1 ||| o2 ||| o3 ||| o4, Kc.key "P3"),
  (i0 ||| i1 ||| o2 ||| o3 ||| i4, Kc.key "F3"),
  (o0 ||| o1 ||| i2 ||| o3, Kc.key "N4"),
  (o0 ||| o1 ||| i2 ||| o3 ||| o4, Kc.key "P4"),
  (o0 ||| o1 ||| i2 ||| o3 ||| i4, Kc.key "F4"),
  (i0 ||| o1 ||| i2 ||| o3, Kc.key "N5"),
  (i0 ||| o1 ||| i2 ||| o3 ||| o4, Kc.key "P5"),
  (i0 ||| o1 ||| i2 ||| o3 ||| i4, Kc.key "F5"),
  (o0 ||| i1 ||| i2 ||| o3, Kc.key "N6"),
  (o0 ||| i1 ||| i2 ||| o3 ||| o4, Kc.key "P6"),
  (o0 ||| i1 ||| i2 ||| o3 ||| i4, Kc.key "F6"),
  (i0 ||| i1 ||| i2 ||| o3, Kc.key "N7"),
  (i0 ||| i1 ||| i2 ||| o3 ||| o4, Kc.key "P7"),
  (i0 ||| i1 ||| i2 ||| o3 ||| i4, Kc.key "F7"),
  (o0 ||| o1 ||| o2 ||| i3, Kc.key "N8"),
  (o0 ||| o1 ||| o2 ||| i3 ||| o4, Kc.key "P8"),
  (o0 ||| o1 ||| o2 ||| i3 ||| i4, Kc.key "F8"),
  (i0 ||| o1 ||| o2 ||| i3, Kc.key "N9"),
  (i0 ||| o1 ||| o2 ||| i3 ||| o4, Kc.key "P9"),
  (i0 ||| o1 ||| o2 ||| i3 ||| i4, Kc.key "F9"),
  (o0 ||| i1 ||| o2 ||| i3, Kc.key "F10"),
  (o0 ||| i1 ||| o2 ||| i3 ||| i4, Kc.key "F14"),
  (i0 ||| i1 ||| o2 ||| i3, Kc.key "F11"),
  (i0 ||| i1 ||| o2 ||| i3 ||| i4, Kc.key "F15"),
  (o0 ||| o1 ||| i2 ||| i3, Kc.key "F12"),
  (o0 ||| o1 ||| i2 ||| i3 ||| i4, Kc.key "F16"),
  (i0 ||| o1 ||| i2 ||| i3, Kc.key "F13"),
  (i0 ||| o1 ||| i2 ||| i3 ||| i4, Kc.key "F17"),
  (o0 ||| i1 ||| i2 ||| i3, Kc.withMod "LSFT" (Kc.withMod "LALT" (Kc.key "D"))),
  (o0 ||| i1 ||| i2 ||| i3 ||| o4, Kc.macroKey "LSFT(LALT(D)) BSPC"),
  (o0 ||| i1 ||| i2 ||| i3 ||| i4, Kc.macroKey "LSFT(LALT(D)) MINUS"),
  (i0 ||| i1 ||| i2 ||| i3, Kc.withMod "LSFT" (Kc.withMod "LALT" (Kc.key "T"))),
  (i0 ||| i1 ||| i2 ||| i3 ||| o4, Kc.macroKey "LSFT(LALT(T)) BSPC"),
  (i0 ||| i1 ||| i2 ||| i3 ||| i4, Kc.macroKey "LSFT(LALT(T)) MINUS"),
  (i3 ||| o3, Kc.LALT),
  (i3 ||| o3 ||| o4, Kc.NO),
  (i3 ||| o3 ||| i4, Kc.LAYER3),
  (i3 ||| o3 ||| o4 ||| i4, Kc.NO),
  (i2 ||| o2, Kc.LCTL),
  (i2 ||| o2 ||| o4, Kc.NO),
  (i2 ||| o2 ||| i4, Kc.LAYER2),
  (i2 ||| o2 ||| o4 ||| i4, Kc.NO),
  (i1 ||| o1, Kc.LSFT),
  (i1 ||| o1 ||| o4, Kc.NO),
  (i1 ||| o1 ||| i4, Kc.LAYER1),
  (i1 ||| o1 ||| o4 ||| i4, Kc.NO),
  (i0 ||| o0, Kc.LGUI),
  (i0 ||| o0 ||| o4, Kc.NO),
  (i0 ||| o0 ||| i4, Kc.LAYER0),
  (i0 ||| o0 ||| o4 ||| i4, Kc.NO),
  (o0 ||| i0 ||| o3 ||| i3, Kc.MOD_GA),
  (o0 ||| i0 ||| o2 ||| i2, Kc.MOD_GC),
  (o0 ||| i0 ||| o1 ||| i1, Kc.MOD_GS),
  (o3 ||| i3 ||| o2 ||| i2, Kc.MOD_AC),
  (o3 ||| i3 ||| o1 ||| i1, Kc.MOD_AS),
  (o2 ||| i2 ||| o1 ||| i1, Kc.MOD_CS),
  (o0 ||| i0 ||| o3 ||| i3 ||| o2 ||| i2, Kc.MOD_GAC),
  (o0 ||| i0 ||| o3 ||| i3 ||| o1 ||| i1, Kc.MOD_GAS),
  (o0 ||| i0 ||| o2 ||| i2 ||| o1 ||| i1, Kc.MOD_GCS),
  (o3 ||| i3 ||| o2 ||| i2 ||| o1 ||| i1, Kc.MOD_ACS),
  (o0 ||| i0 ||| o3 ||| i3 ||| o2 ||| i2 ||| o1 ||| i1, Kc.MOD_GACS)]

/-- The `Taipo` module configuration: constructor arguments
`tap_timeout=500`, `sticky_timeout=1500` and the instance keymap. -/
structure Taipo where
  tap_timeout : Nat
  sticky_timeout : Nat
  keymap : List (Nat × Kc)

/-- The `Taipo()` instance as constructed in the source: default timeouts and
the full combination table. -/
def taipoDefault : Taipo :=
  { tap_timeout := 500, sticky_timeout := 1500, keymap := taipoKeymap }

/-- Python-dict lookup over the association list: the last binding of a key
wins, exactly as repeated literal keys behave in a `dict` display. -/
def keymapLookup (km : List (Nat × Kc)) (val : Nat) : Option Kc :=
  (km.reverse.find? (fun p => p.1 == val)).map (fun p => p.2)

/-- `Taipo.determine_key`: `self.keymap[val]` if present, else `KC.NO`. -/
def Taipo.determine_key (self : Taipo) (val : Nat) : Kc :=
  match keymapLookup self.keymap val with
  | some k => k
  | none => Kc.NO

/-- The `mods` list computed at the top of `Taipo.handle_key`: singleton for a
bare modifier keycode, the constituent expansion for the composite `MOD_*`
keycodes (transcribed exactly, including the source's `MOD_AC`/`MOD_GAC`
expansions), `[]` otherwise. -/
def modsFor (keycode : Kc) : List Kc :=
  if [Kc.LCTL, Kc.LSFT, Kc.LGUI, Kc.LALT, Kc.RALT, Kc.RGUI].contains keycode then
    [keycode]
  else if keycode = Kc.MOD_GA then [Kc.LGUI, Kc.LALT]
  else if keycode = Kc.MOD_GC then [Kc.LGUI, Kc.LCTL]
  else if keycode = Kc.MOD_GS then [Kc.LGUI, Kc.LSFT]
  else if keycode = Kc.MOD_AC then [Kc.LALT, Kc.LSFT]
  else if keycode = Kc.MOD_AS then [Kc.LALT, Kc.LSFT]
  else if keycode = Kc.MOD_CS then [Kc.LCTL, Kc.LSFT]
  else if keycode = Kc.MOD_GAC then [Kc.LGUI, Kc.LALT, Kc.LSFT]
  else if keycode = Kc.MOD_GAS then [Kc.LGUI, Kc.LALT, Kc.LSFT]
  else if keycode = Kc.MOD_GCS then [Kc.LGUI, Kc.LCTL, Kc.LSFT]
  else if keycode = Kc.MOD_ACS then [Kc.LALT, Kc.LCTL, Kc.LSFT]
  else if keycode = Kc.MOD_GACS then [Kc.LGUI, Kc.LALT, Kc.LCTL, Kc.LSFT]
  else []

/-- `hasattr(keycode, 'blocking')`: in this module only `KC.MACRO` objects
carry a `blocking` attribute. -/
def hasBlocking : Kc → Bool
  | Kc.macroKey _ => true
  | _ => false

/-- The `for mod in mods` loop of `handle_key`.  `state.hold_handled` is read
and written inside the loop, so the flag set when the first constituent is
added changes the branch taken for the remaining constituents. -/
def dispatchMods (sticky_timeout : Nat) : List Kc → State → State × List OutEvent
  | [], st => (st, [])
  | m :: rest, st =>
    if st.hold_handled then
      let r := dispatchMods sticky_timeout rest st
      (r.1, OutEvent.remove_key m :: r.2)
    else if st.hold then
      let r := dispatchMods sticky_timeout rest { st with hold_handled := true }
      (r.1, OutEvent.add_key m :: r.2)
    else
      let r := dispatchMods sticky_timeout rest st
      (r.1, OutEvent.tap_key (Kc.OS m sticky_timeout) :: r.2)

/-- `Taipo.handle_key` for one hand: returns the updated hand state and the
output-sink calls it makes, in order. -/
def Taipo.handle_key (self : Taipo) (st : State) : State × List OutEvent :=
  let mods := modsFor st.keycode
  if mods.length > 0 then
    dispatchMods self.sticky_timeout mods st
  else if st.hold_handled then
    (st, [OutEvent.remove_key st.keycode])
  else if st.hold then
    if hasBlocking st.keycode then
      ({ st with hold_handled := true }, [OutEvent.tap_key st.keycode])
    else
      ({ st with hold_handled := true }, [OutEvent.add_key st.keycode])
  else
    (st, [OutEvent.tap_key st.keycode])

/-- The `is_pressed` branch of `Taipo.process_key` for the selected hand:
force-resolve an outstanding resolution (`keycode != KC.NO`), then OR in the
new bit and re-arm the timer. -/
def Taipo.press_action (self : Taipo) (now code : Nat) (st : State) : State × List OutEvent :=
  let fr := if st.keycode != Kc.NO then (State.reset, (self.handle_key st).2) else (st, [])
  ({ fr.1 with
      combo := fr.1.combo ||| (1 <<< (code % 10)),
      timer := ticks_add now self.tap_timeout }, fr.2)

/-- The release branch of `Taipo.process_key` for the selected hand: on a
non-hold, determine the key from the accumulated combo; dispatch; reset. -/
def Taipo.release_action (self : Taipo) (st : State) : State × List OutEvent :=
  let st1 := if !st.hold then { st with keycode := self.determine_key st.combo } else st
  (State.reset, (self.handle_key st1).2)

/-- The two per-hand `State()` instances, `self.state = [State(), State()]`. -/
structure Hands where
  s0 : State
  s1 : State
deriving DecidableEq

/-- Both hands in their freshly constructed state. -/
def initHands : Hands := ⟨State.reset, State.reset⟩

/-- An input key object: either a `TaipoKey` (has a `taipo_code` attribute) or
any other KMK key, which `process_key` passes through untouched. -/
inductive InKey where
  | taipo (code : Nat)
  | plainKey (name : String)
deriving DecidableEq

/-- `Taipo.process_key`: routes a TaipoKey to the hand selected by
`1 if taipo_code / 10 >= 1 else 0`, and returns any non-Taipo key unchanged
(third component) without touching hand state. -/
def Taipo.process_key (self : Taipo) (now : Nat) (key : InKey) (is_pressed : Bool)
    (h : Hands) : Hands × List OutEvent × Option InKey :=
  match key with
  | InKey.taipo code =>
    if code / 10 ≥ 1 then
      let p := if is_pressed then self.press_action now code h.s1
               else self.release_action h.s1
      (⟨h.s0, p.1⟩, p.2, none)
    else
      let p := if is_pressed then self.press_action now code h.s0
               else self.release_action h.s0
      (⟨p.1, h.s1⟩, p.2, none)
  | InKey.plainKey _ => (h, [], some key)

/-- The body of the `after_matrix_scan` loop for one hand: if a deadline is
pending (`timer` truthy) and has elapsed, resolve the combo as a hold,
dispatch, and clear the timer. -/
def Taipo.tick_side (self : Taipo) (now : Nat) (st : State) : State × List OutEvent :=
  if (st.timer != 0) && ticks_less st.timer now then
    let st1 := { st with keycode := self.determine_key st.combo, hold := true }
    let r := self.handle_key st1
    ({ r.1 with timer := 0 }, r.2)
  else (st, [])

/-- `Taipo.after_matrix_scan`: the periodic deadline check, run for side 0
then side 1. -/
def Taipo.after_matrix_scan (self : Taipo) (now : Nat) (h : Hands) : Hands × List OutEvent :=
  let r0 := self.tick_side now h.s0
  let r1 := self.tick_side now h.s1
  (⟨r0.1, r1.1⟩, r0.2 ++ r1.2)

/-- One externally observable engine stimulus: a debounced key transition
(delivered to `process_key`) or one periodic scan tick (delivered to
`after_matrix_scan`), each carrying the `ticks_ms()` reading at that moment. -/
inductive Ev where
  | key (now : Nat) (k : InKey) (pressed : Bool)
  | scan (now : Nat)
deriving DecidableEq

/-- Execute one stimulus. -/
def Taipo.step (self : Taipo) (h : Hands) : Ev → Hands × List OutEvent
  | Ev.key now k pressed =>
    let r := self.process_key now k pressed h
    (r.1, r.2.1)
  | Ev.scan now => self.after_matrix_scan now h

/-- Execute a stimulus sequence, concatenating the output-sink calls. -/
def Taipo.run (self : Taipo) (h : Hands) : List Ev → Hands × List OutEvent
  | [] => (h, [])
  | e :: rest =>
    let r := self.step h e
    let r2 := self.run r.1 rest
    (r2.1, r.2 ++ r2.2)

/-- The hand index `process_key` derives from a taipo code:
`1 if code / 10 >= 1 else 0`. -/
def codeSide (code : Nat) : Nat := if code / 10 ≥ 1 then 1 else 0

/-- An input event is an actuator event when any taipo code it carries is a
physical actuator identifier, i.e. lies in [0, 19]. -/
def evActuator : Ev → Bool
  | Ev.key _ (InKey.taipo c) _ => c < 20
  | _ => true

/-- Update, for hand `s`, the set of actuator bit positions with an open press
(pressed and not yet released) across one input event. -/
def openUpd (s : Nat) (o : Finset Nat) : Ev → Finset Nat
  | Ev.key _ (InKey.taipo c) pressed =>
    if codeSide c = s then
      if pressed then insert (c % 10) o else o.erase (c % 10)
    else o
  | _ => o

/-- The open-press set of hand `s` after an input sequence. -/
def openAfter (s : Nat) : List Ev → Finset Nat → Finset Nat
  | [], o => o
  | e :: rest, o => openAfter s rest (openUpd s o e)

/-- `comboSub c o`: every bit set in the bitmask `c` lies in the set `o`. -/
def comboSub (c : Nat) (o : Finset Nat) : Prop :=
  ∀ j, c.testBit j = true → j ∈ o

/-! Helper lemmas about the embedded operations. -/

/-- The `for mod in mods` loop never changes the `combo` field. -/
theorem dispatchMods_combo (s : Nat) (ms : List Kc) (st : State) :
    (dispatchMods s ms st).1.combo = st.combo := by
  induction ms generalizing st with
  | nil => rfl
  | cons m rest ih =>
    simp only [dispatchMods]
    split
    · exact ih st
    · split
      · exact ih _
      · exact ih st

/-- `handle_key` never changes the `combo` field. -/
theorem handle_key_combo (cfg : Taipo) (st : State) :
    (cfg.handle_key st).1.combo = st.combo := by
  unfold Taipo.handle_key
  dsimp only
  repeat' split
  all_goals first
  | rfl
  | exact dispatchMods_combo _ _ _

/-- The periodic deadline check never changes the `combo` field. -/
theorem tick_side_combo (cfg : Taipo) (now : Nat) (st : State) :
    (cfg.tick_side now st).1.combo = st.combo := by
  unfold Taipo.tick_side
  split
  · simp [handle_key_combo]
  · rfl

/-- A hand whose `timer` is the `0` sentinel is skipped by the deadline check. -/
theorem tick_side_zero (cfg : Taipo) (now : Nat) (st : State) (h : st.timer = 0) :
    cfg.tick_side now st = (st, []) := by
  unfold Taipo.tick_side
  rw [if_neg]
  simp [h]

/-- A hand whose deadline has not elapsed is skipped by the deadline check. -/
theorem tick_side_skip (cfg : Taipo) (now : Nat) (st : State)
    (h : ticks_less st.timer now = false) :
    cfg.tick_side now st = (st, []) := by
  unfold Taipo.tick_side
  rw [if_neg]
  simp [h]

/-- When a deadline is pending and elapsed, the check resolves the combo as a
hold, dispatches `handle_key`, and clears the timer. -/
theorem tick_side_fire (cfg : Taipo) (now : Nat) (st : State)
    (h1 : st.timer ≠ 0) (h2 : ticks_less st.timer now = true) :
    cfg.tick_side now st
      = (let st1 := { st with keycode := cfg.determine_key st.combo, hold := true }
         let r := cfg.handle_key st1
         ({ r.1 with timer := 0 }, r.2)) := by
  unfold Taipo.tick_side
  rw [if_pos]
  rw [h2, Bool.and_true, bne_iff_ne]
  exact h1

/-- Executing a concatenation of stimulus sequences. -/
theorem run_append (cfg : Taipo) (t1 t2 : List Ev) (h : Hands) :
    cfg.run h (t1 ++ t2)
      = ((cfg.run (cfg.run h t1).1 t2).1,
         (cfg.run h t1).2 ++ (cfg.run (cfg.run h t1).1 t2).2) := by
  induction t1 generalizing h with
  | nil => simp [Taipo.run]
  | cons e rest ih =>
    simp only [List.cons_append, Taipo.run, List.append_eq]
    rw [ih]
    simp [List.append_assoc]

/-- `tick_side_fire` with the table lookup already resolved to `k`. -/
theorem tick_side_fire_eq (cfg : Taipo) (now : Nat) (st : State) (k : Kc)
    (h1 : st.timer ≠ 0) (h2 : ticks_less st.timer now = true)
    (hdet : cfg.determine_key st.combo = k) :
    cfg.tick_side now st
      = (let r := cfg.handle_key { st with keycode := k, hold := true }
         ({ r.1 with timer := 0 }, r.2)) := by
  rw [tick_side_fire cfg now st h1 h2, hdet]

/-- Composition form of `run_append`. -/
theorem run_append_eq (cfg : Taipo) (t1 t2 : List Ev) (h h1 h2 : Hands)
    (e1 e2 : List OutEvent)
    (ha : cfg.run h t1 = (h1, e1)) (hb : cfg.run h1 t2 = (h2, e2)) :
    cfg.run h (t1 ++ t2) = (h2, e1 ++ e2) := by
  rw [run_append]
  simp [ha, hb]

/-- A block of scan ticks during which neither hand fires is a no-op. -/
theorem run_scans (cfg : Taipo) (h : Hands) (ts : List Nat)
    (h0 : ∀ u ∈ ts, cfg.tick_side u h.s0 = (h.s0, []))
    (h1 : ∀ u ∈ ts, cfg.tick_side u h.s1 = (h.s1, [])) :
    cfg.run h (ts.map Ev.scan) = (h, []) := by
  induction ts with
  | nil => simp [Taipo.run]
  | cons u rest ih =>
    have e0 := h0 u (by simp)
    have e1 := h1 u (by simp)
    simp only [List.map_cons, Taipo.run, Taipo.step, Taipo.after_matrix_scan, e0, e1]
    simpa using ih (fun v hv => h0 v (by simp [hv])) (fun v hv => h1 v (by simp [hv]))

/-- `handle_key` on a plain (no-mods) keycode in the tap path: one `tap_key`. -/
theorem handle_key_tap (cfg : Taipo) (c t : Nat) (k : Kc) (hmods : modsFor k = []) :
    cfg.handle_key ⟨c, t, k, false, false⟩
      = (⟨c, t, k, false, false⟩, [OutEvent.tap_key k]) := by
  simp only [Taipo.handle_key, hmods]
  rfl

/-- `handle_key` on a plain non-blocking keycode at hold-begin: one `add_key`
and the `hold_handled` latch is set. -/
theorem handle_key_hold_begin (cfg : Taipo) (c t : Nat) (k : Kc)
    (hmods : modsFor k = []) (hbl : hasBlocking k = false) :
    cfg.handle_key ⟨c, t, k, true, false⟩
      = (⟨c, t, k, true, true⟩, [OutEvent.add_key k]) := by
  simp only [Taipo.handle_key, hmods, hbl]
  rfl

/-- `handle_key` on a plain keycode after the hold was asserted: one
`remove_key`. -/
theorem handle_key_hold_end (cfg : Taipo) (c t : Nat) (k : Kc) (hd : Bool)
    (hmods : modsFor k = []) :
    cfg.handle_key ⟨c, t, k, hd, true⟩
      = (⟨c, t, k, hd, true⟩, [OutEvent.remove_key k]) := by
  simp only [Taipo.handle_key, hmods]
  rfl

/-! Claim C6 (corrected) and its counterexample. -/

/-- C6 (counterexample): the claim quantifies over `0 <= d < 2^28`, but at
`d = 0` we get `ticks_less t t = false`, not `true`. -/
theorem C6_counterexample : ticks_less 0 (ticks_add 0 0) = false := by decide

/-- C6 (amended): for every tick `t < 2^29` and every delta `0 < d < 2^28`,
`ticks_less t (ticks_add t d) = true`, including when `ticks_add t d` wraps
past the modulus `2^29`. -/
theorem C6_theorem (t d : Nat) (ht : t < 2 ^ 29) (hd0 : 0 < d) (hd : d < 2 ^ 28) :
    ticks_less t (ticks_add t d) = true := by
  have hP : TICKS_PERIOD = 536870912 := rfl
  have hH : TICKS_HALFPERIOD = 268435456 := rfl
  norm_num at ht hd
  simp only [ticks_less, ticks_diff, ticks_add, hP, hH, decide_eq_true_eq]
  push_cast
  omega

/-- C6 witness: a wrapping instance, `t = 2^29 - 100`, `d = 500`. -/
theorem C6_witness :
    ((536870812 : Nat) < 2 ^ 29 ∧ (0 : Nat) < 500 ∧ (500 : Nat) < 2 ^ 28)
    ∧ ticks_less 536870812 (ticks_add 536870812 500) = true :=
  ⟨⟨by norm_num, by norm_num, by norm_num⟩,
   C6_theorem 536870812 500 (by norm_num) (by norm_num) (by norm_num)⟩

/-! Claim C5 (corrected) and its counterexample. -/

/-- C5 (counterexample): the first press (time 0) arms the deadline to 500,
but a second press on the same accumulating hand (time 100) re-arms it to
600 instead of leaving it unchanged. -/
theorem C5_counterexample :
    (taipoDefault.run initHands [Ev.key 0 (InKey.taipo 0) true]).1.s0.timer = 500
    ∧ (taipoDefault.run initHands
        [Ev.key 0 (InKey.taipo 0) true, Ev.key 100 (InKey.taipo 1) true]).1.s0.timer = 600
    ∧ (600 : Nat) ≠ 500 :=
  ⟨rfl, rfl, by decide⟩

/-- C5 (amended): every actuator press — first or subsequent — sets the
hand's deadline to `now + tap_timeout`; a subsequent press re-arms (slides)
the pending deadline rather than leaving it unchanged. -/
theorem C5_theorem (cfg : Taipo) (now code : Nat) (st : State) :
    (cfg.press_action now code st).1.timer = ticks_add now cfg.tap_timeout := rfl

/-! Claim C7 (code bug): no input-boundary validation of the actuator id. -/

/-- C7: pressing a TaipoKey whose `taipo_code` is 24 — outside the actuator
range [0,19] — is not rejected: `process_key` folds it onto hand 1 and sets
bit `24 % 10 = 4` in that hand's combo (and does not pass the key through),
mutating hand state instead of failing fast. -/
theorem C7_code_behavior :
    (taipoDefault.process_key 0 (InKey.taipo 24) true initHands).1.s1.combo = 16
    ∧ (taipoDefault.process_key 0 (InKey.taipo 24) true initHands).1 ≠ initHands
    ∧ (taipoDefault.process_key 0 (InKey.taipo 24) true initHands).2.2 = none :=
  ⟨rfl, by decide, rfl⟩

/-! Claim C2 (code bug): composite-modifier hold sets `hold_handled` inside
the constituent loop. -/

/-- C2: the chord `o0|i0|o3|i3` (mask 594, actuators {1,4,6,9} of hand 0)
resolves to `MOD_GA`, whose constituent list is `[LGUI, LALT]`; held past the
tap timeout and then released, the engine emits `add_key(LGUI)` followed by
`remove_key(LALT)` at hold-begin (the `hold_handled` flag set when LGUI is
added flips the branch taken for LALT), then `remove_key(LGUI)` and
`remove_key(LALT)` at release — not `add_key` for both constituents. -/
theorem C2_code_behavior :
    taipoDefault.determine_key 594 = Kc.MOD_GA
    ∧ modsFor Kc.MOD_GA = [Kc.LGUI, Kc.LALT]
    ∧ (taipoDefault.run initHands
        [Ev.key 0 (InKey.taipo 1) true, Ev.key 1 (InKey.taipo 4) true,
         Ev.key 2 (InKey.taipo 6) true, Ev.key 3 (InKey.taipo 9) true,
         Ev.scan 600, Ev.key 700 (InKey.taipo 9) false]).2
        = [OutEvent.add_key Kc.LGUI, OutEvent.remove_key Kc.LALT,
           OutEvent.remove_key Kc.LGUI, OutEvent.remove_key Kc.LALT] :=
  ⟨rfl, rfl, rfl⟩

/-! Claim C1 (corrected) and its counterexample. -/

/-- C1 (counterexample): mask 1023 (all ten actuators of hand 0) has no table
entry and resolves to `KC.NO`, but dispatching that resolution is not zero
output-sink calls: the tap path calls `tap_key(KC.NO)` once. -/
theorem C1_counterexample :
    taipoDefault.determine_key 1023 = Kc.NO
    ∧ (taipoDefault.run initHands
        ((List.range 10).map (fun c => Ev.key c (InKey.taipo c) true)
          ++ [Ev.key 20 (InKey.taipo 9) false])).2 = [OutEvent.tap_key Kc.NO]
    ∧ [OutEvent.tap_key Kc.NO] ≠ ([] : List OutEvent) :=
  ⟨rfl, rfl, by decide⟩

/-- C1 (amended): for every bitmask `m` with no entry in the combination
table, resolving `m` yields `KC.NO`, and the dispatch makes exactly one
output-sink call carrying the null keycode `KC.NO` — `tap_key(KC.NO)` on the
tap path at release, `add_key(KC.NO)` on the hold path at deadline expiry —
and no call carrying any other keycode. -/
theorem C1_theorem (cfg : Taipo) (m t1 t2 now : Nat) (k1 k2 : Kc)
    (hm : keymapLookup cfg.keymap m = none)
    (hT : t2 ≠ 0) (hL : ticks_less t2 now = true) :
    cfg.determine_key m = Kc.NO
    ∧ (cfg.release_action ⟨m, t1, k1, false, false⟩).2 = [OutEvent.tap_key Kc.NO]
    ∧ (cfg.tick_side now ⟨m, t2, k2, false, false⟩).2 = [OutEvent.add_key Kc.NO] := by
  have hdet : cfg.determine_key m = Kc.NO := by
    unfold Taipo.determine_key
    rw [hm]
  refine ⟨hdet, ?_, ?_⟩
  · show (cfg.handle_key ⟨m, t1, cfg.determine_key m, false, false⟩).2
        = [OutEvent.tap_key Kc.NO]
    rw [hdet, handle_key_tap cfg m t1 Kc.NO rfl]
  · rw [tick_side_fire cfg now ⟨m, t2, k2, false, false⟩ hT hL]
    show (cfg.handle_key ⟨m, t2, cfg.determine_key m, true, false⟩).2
        = [OutEvent.add_key Kc.NO]
    rw [hdet, handle_key_hold_begin cfg m t2 Kc.NO rfl rfl]

/-- C1 witness at mask 1023 of the default table. -/
theorem C1_witness :
    (keymapLookup taipoDefault.keymap 1023 = none ∧ (100 : Nat) ≠ 0
      ∧ ticks_less 100 600 = true)
    ∧ (taipoDefault.determine_key 1023 = Kc.NO
      ∧ (taipoDefault.release_action ⟨1023, 7, Kc.NO, false, false⟩).2
          = [OutEvent.tap_key Kc.NO]
      ∧ (taipoDefault.tick_side 600 ⟨1023, 100, Kc.NO, false, false⟩).2
          = [OutEvent.add_key Kc.NO]) :=
  ⟨⟨rfl, by decide, by decide⟩,
   C1_theorem taipoDefault 1023 7 100 600 Kc.NO Kc.NO rfl (by decide) (by decide)⟩

/-! Claim C4 (corrected) and its counterexample. -/

/-- C4 (counterexample): actuators {0,5} of hand 0 form mask 33, whose table
entry is `KC.NO`; held past the deadline the chord is resolved (the hold
dispatch `add_key(KC.NO)` occurs), yet a further press of actuator 1 does not
force-resolve and restart: it ORs bit 1 into the live combo, giving 35. -/
theorem C4_counterexample :
    (taipoDefault.run initHands
      [Ev.key 0 (InKey.taipo 0) true, Ev.key 1 (InKey.taipo 5) true,
       Ev.scan 600, Ev.key 700 (InKey.taipo 1) true]).2 = [OutEvent.add_key Kc.NO]
    ∧ (taipoDefault.run initHands
        [Ev.key 0 (InKey.taipo 0) true, Ev.key 1 (InKey.taipo 5) true,
         Ev.scan 600, Ev.key 700 (InKey.taipo 1) true]).1.s0.combo = 35
    ∧ (35 : Nat) ≠ 1 <<< 1 :=
  ⟨rfl, rfl, by decide⟩

/-- C4 (amended): a further actuator press on a hand whose outstanding
resolution is a key other than `KC.NO` first force-resolves (dispatching
`handle_key` on the outstanding state) and resets the hand, then starts a new
chord holding exactly the newly pressed bit; when the outstanding hold
resolved to `KC.NO` (table miss or an explicit `KC.NO` entry) the press
instead merges into the previous chord's live combo. -/
theorem C4_theorem (cfg : Taipo) (now code cmb tmr : Nat) (k : Kc) (hd hh : Bool)
    (hk : k ≠ Kc.NO) :
    (cfg.press_action now code ⟨cmb, tmr, k, hd, hh⟩).1
        = ⟨1 <<< (code % 10), ticks_add now cfg.tap_timeout, Kc.NO, false, false⟩
    ∧ (cfg.press_action now code ⟨cmb, tmr, k, hd, hh⟩).2
        = (cfg.handle_key ⟨cmb, tmr, k, hd, hh⟩).2 := by
  have hb : (k != Kc.NO) = true := bne_iff_ne.mpr hk
  refine ⟨?_, ?_⟩ <;>
    simp [Taipo.press_action, hb, State.reset, Nat.zero_or]

/-- C4 witness: a held chord resolved to `S` is flushed by the next press. -/
theorem C4_witness :
    Kc.key "S" ≠ Kc.NO
    ∧ ((taipoDefault.press_action 700 1 ⟨16, 0, Kc.key "S", true, true⟩).1
        = ⟨1 <<< (1 % 10), ticks_add 700 taipoDefault.tap_timeout, Kc.NO, false, false⟩
      ∧ (taipoDefault.press_action 700 1 ⟨16, 0, Kc.key "S", true, true⟩).2
        = (taipoDefault.handle_key ⟨16, 0, Kc.key "S", true, true⟩).2) :=
  ⟨by decide, C4_theorem taipoDefault 700 1 16 0 (Kc.key "S") true true (by decide)⟩

/-! Claim C3 (corrected): combo bits versus open presses. -/

/-- The zero bitmask is contained in any open-press set. -/
theorem comboSub_zero (o : Finset Nat) : comboSub 0 o := by
  intro j hj
  rw [Nat.zero_testBit] at hj
  exact absurd hj (by decide)

/-- Adding bit `b` to a contained bitmask lands in the inserted set. -/
theorem comboSub_or (c b : Nat) (o : Finset Nat) (h : comboSub c o) :
    comboSub (c ||| 1 <<< b) (insert b o) := by
  intro j hj
  rw [Nat.testBit_lor] at hj
  rcases Bool.or_eq_true_iff.mp hj with hc | hb
  · exact Finset.mem_insert_of_mem (h j hc)
  · by_cases hjb : b = j
    · rw [hjb]
      exact Finset.mem_insert_self j o
    · rw [Nat.one_shiftLeft, Nat.testBit_two_pow_of_ne hjb] at hb
      exact absurd hb (by decide)

/-- A press on the selected hand keeps the combo inside the open-press set
extended with the new bit (whether or not it force-resolves first). -/
theorem press_action_comboSub (cfg : Taipo) (now c : Nat) (st : State) (o : Finset Nat)
    (h : comboSub st.combo o) :
    comboSub (cfg.press_action now c st).1.combo (insert (c % 10) o) := by
  unfold Taipo.press_action
  dsimp only
  split
  · exact comboSub_or _ _ _ (comboSub_zero o)
  · exact comboSub_or _ _ _ h

/-- One engine step preserves the per-hand combo/open-press containment. -/
theorem step_comboSub (cfg : Taipo) (h : Hands) (e : Ev) (O0 O1 : Finset Nat)
    (h0 : comboSub h.s0.combo O0) (h1 : comboSub h.s1.combo O1) :
    comboSub (cfg.step h e).1.s0.combo (openUpd 0 O0 e)
      ∧ comboSub (cfg.step h e).1.s1.combo (openUpd 1 O1 e) := by
  cases e with
  | scan now =>
    refine ⟨?_, ?_⟩
    · simpa [Taipo.step, Taipo.after_matrix_scan, openUpd, tick_side_combo] using h0
    · simpa [Taipo.step, Taipo.after_matrix_scan, openUpd, tick_side_combo] using h1
  | key now k pressed =>
    cases k with
    | plainKey n =>
      refine ⟨?_, ?_⟩
      · simpa [Taipo.step, Taipo.process_key, openUpd] using h0
      · simpa [Taipo.step, Taipo.process_key, openUpd] using h1
    | taipo c =>
      by_cases hs : c / 10 ≥ 1
      · have hcs : codeSide c = 1 := by simp [codeSide, hs]
        cases pressed
        · refine ⟨?_, ?_⟩
          · simpa [Taipo.step, Taipo.process_key, hs, openUpd, hcs] using h0
          · simp only [Taipo.step, Taipo.process_key, if_pos hs, openUpd, hcs,
              if_neg (by decide : ¬ (1 : Nat) = 1 → False), Taipo.release_action]
            simpa [openUpd, hcs] using comboSub_zero (O1.erase (c % 10))
        · refine ⟨?_, ?_⟩
          · simpa [Taipo.step, Taipo.process_key, hs, openUpd, hcs] using h0
          · simpa [Taipo.step, Taipo.process_key, hs, openUpd, hcs] using
              press_action_comboSub cfg now c h.s1 O1 h1
      · have hcs : codeSide c = 0 := by simp [codeSide, hs]
        cases pressed
        · refine ⟨?_, ?_⟩
          · simpa [Taipo.step, Taipo.process_key, hs, openUpd, hcs, Taipo.release_action]
              using comboSub_zero (O0.erase (c % 10))
          · simpa [Taipo.step, Taipo.process_key, hs, openUpd, hcs] using h1
        · refine ⟨?_, ?_⟩
          · simpa [Taipo.step, Taipo.process_key, hs, openUpd, hcs] using
              press_action_comboSub cfg now c h.s0 O0 h0
          · simpa [Taipo.step, Taipo.process_key, hs, openUpd, hcs] using h1

/-- Running any stimulus sequence preserves the containment, per hand. -/
theorem run_comboSub (cfg : Taipo) (tr : List Ev) (h : Hands) (O0 O1 : Finset Nat)
    (h0 : comboSub h.s0.combo O0) (h1 : comboSub h.s1.combo O1) :
    comboSub (cfg.run h tr).1.s0.combo (openAfter 0 tr O0)
      ∧ comboSub (cfg.run h tr).1.s1.combo (openAfter 1 tr O1) := by
  induction tr generalizing h O0 O1 with
  | nil => exact ⟨h0, h1⟩
  | cons e rest ih =>
    have hstep := step_comboSub cfg h e O0 O1 h0 h1
    have hrw : (cfg.run h (e :: rest)).1 = (cfg.run (cfg.step h e).1 rest).1 := by
      simp [Taipo.run]
    rw [hrw]
    exact ih _ _ _ hstep.1 hstep.2

/-- C3 (counterexample): press actuator 4 of hand 0 at time 0; at the scan at
time 600 the chord is resolved as a hold and the resolution is dispatched
(`add_key S`), yet immediately afterwards `combo` is still 16, not 0. -/
theorem C3_counterexample :
    (taipoDefault.run initHands [Ev.key 0 (InKey.taipo 4) true, Ev.scan 600]).2
        = [OutEvent.add_key (Kc.key "S")]
    ∧ (taipoDefault.run initHands
        [Ev.key 0 (InKey.taipo 4) true, Ev.scan 600]).1.s0.combo = 16
    ∧ (16 : Nat) ≠ 0 :=
  ⟨rfl, rfl, by decide⟩

/-- C3 (amended): over any sequence of actuator events and scan ticks,
`combo(h)` only ever has bits for actuators of `h` whose press is still open;
a tap resolution (release path) always clears `combo(h)` to 0; but a hold
resolution at deadline expiry leaves `combo(h)` unchanged — the chord's bits,
still physically pressed, are only cleared at the subsequent release or
force-resolve. -/
theorem C3_theorem (cfg : Taipo) (tr : List Ev)
    (hval : ∀ e ∈ tr, evActuator e = true) :
    (comboSub (cfg.run initHands tr).1.s0.combo (openAfter 0 tr ∅)
      ∧ comboSub (cfg.run initHands tr).1.s1.combo (openAfter 1 tr ∅))
    ∧ (∀ st : State, (cfg.release_action st).1.combo = 0)
    ∧ (∀ (now : Nat) (st : State), (cfg.tick_side now st).1.combo = st.combo) := by
  refine ⟨run_comboSub cfg tr initHands ∅ ∅ (comboSub_zero ∅) (comboSub_zero ∅), ?_, ?_⟩
  · intro st
    rfl
  · intro now st
    exact tick_side_combo cfg now st

/-- Concrete stimulus sequence used by the C3 witness. -/
def c3Trace : List Ev :=
  [Ev.key 0 (InKey.taipo 4) true, Ev.scan 600, Ev.key 700 (InKey.taipo 4) false]

/-- C3 witness: the amended invariant at a concrete press/hold/release run. -/
theorem C3_witness :
    (∀ e ∈ c3Trace, evActuator e = true)
    ∧ ((comboSub (taipoDefault.run initHands c3Trace).1.s0.combo (openAfter 0 c3Trace ∅)
        ∧ comboSub (taipoDefault.run initHands c3Trace).1.s1.combo (openAfter 1 c3Trace ∅))
      ∧ (∀ st : State, (taipoDefault.release_action st).1.combo = 0)
      ∧ (∀ (now : Nat) (st : State),
          (taipoDefault.tick_side now st).1.combo = st.combo)) :=
  ⟨by decide, C3_theorem taipoDefault c3Trace (by decide)⟩

/-! Claim C8 (confirmed): the hold law for a single `Simple` actuator. -/

set_option maxHeartbeats 1000000 in
/-- C8: press actuator 4 of hand 0 (table outcome `S`, a Simple key) at time
`a`; scans `ts1` before the deadline do nothing; the first scan `s` past the
deadline emits exactly one `add_key S`; further scans `ts2` while held emit
nothing; the release emits exactly one matching `remove_key S`. -/
theorem C8_theorem (a s r : Nat) (ts1 ts2 : List Nat)
    (hD : ticks_add a 500 ≠ 0)
    (h1 : ∀ u ∈ ts1, ticks_less (ticks_add a 500) u = false)
    (hs : ticks_less (ticks_add a 500) s = true) :
    (taipoDefault.run initHands
      ([Ev.key a (InKey.taipo 4) true] ++ ts1.map Ev.scan ++ [Ev.scan s]
        ++ ts2.map Ev.scan ++ [Ev.key r (InKey.taipo 4) false])).2
      = [OutEvent.add_key (Kc.key "S"), OutEvent.remove_key (Kc.key "S")] := by
  have e1 : taipoDefault.run initHands [Ev.key a (InKey.taipo 4) true]
      = (⟨⟨16, ticks_add a 500, Kc.NO, false, false⟩, State.reset⟩, []) := by
    with_unfolding_all rfl
  have e2 : taipoDefault.run ⟨⟨16, ticks_add a 500, Kc.NO, false, false⟩, State.reset⟩
        (ts1.map Ev.scan)
      = (⟨⟨16, ticks_add a 500, Kc.NO, false, false⟩, State.reset⟩, []) :=
    run_scans _ _ _ (fun u hu => tick_side_skip _ _ _ (h1 u hu))
      (fun _ _ => tick_side_zero _ _ _ rfl)
  have hf : taipoDefault.tick_side s ⟨16, ticks_add a 500, Kc.NO, false, false⟩
      = (⟨16, 0, Kc.key "S", true, true⟩, [OutEvent.add_key (Kc.key "S")]) := by
    rw [tick_side_fire_eq taipoDefault s ⟨16, ticks_add a 500, Kc.NO, false, false⟩
        (Kc.key "S") hD hs rfl]
    with_unfolding_all rfl
  have e3 : taipoDefault.run ⟨⟨16, ticks_add a 500, Kc.NO, false, false⟩, State.reset⟩
        [Ev.scan s]
      = (⟨⟨16, 0, Kc.key "S", true, true⟩, State.reset⟩,
         [OutEvent.add_key (Kc.key "S")]) := by
    simp only [Taipo.run, Taipo.step, Taipo.after_matrix_scan, hf]
    with_unfolding_all rfl
  have e4 : taipoDefault.run ⟨⟨16, 0, Kc.key "S", true, true⟩, State.reset⟩ (ts2.map Ev.scan)
      = (⟨⟨16, 0, Kc.key "S", true, true⟩, State.reset⟩, []) :=
    run_scans _ _ _ (fun _ _ => tick_side_zero _ _ _ rfl)
      (fun _ _ => tick_side_zero _ _ _ rfl)
  have e5 : taipoDefault.run ⟨⟨16, 0, Kc.key "S", true, true⟩, State.reset⟩
        [Ev.key r (InKey.taipo 4) false]
      = (⟨State.reset, State.reset⟩, [OutEvent.remove_key (Kc.key "S")]) := by
    with_unfolding_all rfl
  have b12 := run_append_eq _ _ _ _ _ _ _ _ e1 e2
  have b13 := run_append_eq _ _ _ _ _ _ _ _ b12 e3
  have b14 := run_append_eq _ _ _ _ _ _ _ _ b13 e4
  have b15 := run_append_eq _ _ _ _ _ _ _ _ b14 e5
  rw [b15]
  rfl

/-- C8 witness: press at 0, idle scans at 100 and 200, firing scan at 600,
held scans at 700 and 800, release at 900. -/
theorem C8_witness :
    (ticks_add 0 500 ≠ 0
      ∧ (∀ u ∈ [100, 200], ticks_less (ticks_add 0 500) u = false)
      ∧ ticks_less (ticks_add 0 500) 600 = true)
    ∧ (taipoDefault.run initHands
        ([Ev.key 0 (InKey.taipo 4) true] ++ [100, 200].map Ev.scan ++ [Ev.scan 600]
          ++ [700, 800].map Ev.scan ++ [Ev.key 900 (InKey.taipo 4) false])).2
        = [OutEvent.add_key (Kc.key "S"), OutEvent.remove_key (Kc.key "S")] :=
  ⟨⟨by decide, by decide, by decide⟩,
   C8_theorem 0 600 900 [100, 200] [700, 800] (by decide) (by decide) (by decide)⟩

/-! Claim C9 (confirmed): tap resolution uses the full accumulated bitmask.
The spec states this law for an engine whose table is
`{(1<<0): Simple(KEY_A), (1<<0)|(1<<1): Simple(KEY_B)}`, so it is proved
against a `Taipo` instance carrying exactly that table. -/

/-- The two-entry combination table of the end-to-end example. -/
def abKeymap : List (Nat × Kc) :=
  [(1 <<< 0, Kc.key "KEY_A"), (1 <<< 0 ||| 1 <<< 1, Kc.key "KEY_B")]

/-- A `Taipo` instance over `abKeymap`, default timeouts. -/
def abTaipo : Taipo := { tap_timeout := 500, sticky_timeout := 1500, keymap := abKeymap }

set_option maxHeartbeats 1000000 in
/-- C9: press(0), press(1) within the timeout (any non-expiring scans in
between), release(1) dispatches exactly one tap of `KEY_B` — the full combo
`0b11` resolved at the first release — while press(0), release(0) alone
dispatches exactly one tap of `KEY_A` (combo `0b01`). -/
theorem C9_theorem (t0 t1 t2 t3 t4 : Nat) (us vs : List Nat)
    (hu : ∀ u ∈ us, ticks_less (ticks_add t0 500) u = false)
    (hv : ∀ v ∈ vs, ticks_less (ticks_add t1 500) v = false) :
    (abTaipo.run initHands
      ([Ev.key t0 (InKey.taipo 0) true] ++ us.map Ev.scan
        ++ [Ev.key t1 (InKey.taipo 1) true] ++ vs.map Ev.scan
        ++ [Ev.key t2 (InKey.taipo 1) false])).2
      = [OutEvent.tap_key (Kc.key "KEY_B")]
    ∧ (abTaipo.run initHands
        [Ev.key t3 (InKey.taipo 0) true, Ev.key t4 (InKey.taipo 0) false]).2
      = [OutEvent.tap_key (Kc.key "KEY_A")] := by
  constructor
  · have e1 : abTaipo.run initHands [Ev.key t0 (InKey.taipo 0) true]
        = (⟨⟨1, ticks_add t0 500, Kc.NO, false, false⟩, State.reset⟩, []) := by
      with_unfolding_all rfl
    have e2 : abTaipo.run ⟨⟨1, ticks_add t0 500, Kc.NO, false, false⟩, State.reset⟩
          (us.map Ev.scan)
        = (⟨⟨1, ticks_add t0 500, Kc.NO, false, false⟩, State.reset⟩, []) :=
      run_scans _ _ _ (fun u huu => tick_side_skip _ _ _ (hu u huu))
        (fun _ _ => tick_side_zero _ _ _ rfl)
    have e3 : abTaipo.run ⟨⟨1, ticks_add t0 500, Kc.NO, false, false⟩, State.reset⟩
          [Ev.key t1 (InKey.taipo 1) true]
        = (⟨⟨3, ticks_add t1 500, Kc.NO, false, false⟩, State.reset⟩, []) := by
      with_unfolding_all rfl
    have e4 : abTaipo.run ⟨⟨3, ticks_add t1 500, Kc.NO, false, false⟩, State.reset⟩
          (vs.map Ev.scan)
        = (⟨⟨3, ticks_add t1 500, Kc.NO, false, false⟩, State.reset⟩, []) :=
      run_scans _ _ _ (fun v hvv => tick_side_skip _ _ _ (hv v hvv))
        (fun _ _ => tick_side_zero _ _ _ rfl)
    have e5 : abTaipo.run ⟨⟨3, ticks_add t1 500, Kc.NO, false, false⟩, State.reset⟩
          [Ev.key t2 (InKey.taipo 1) false]
        = (⟨State.reset, State.reset⟩, [OutEvent.tap_key (Kc.key "KEY_B")]) := by
      with_unfolding_all rfl
    have b12 := run_append_eq _ _ _ _ _ _ _ _ e1 e2
    have b13 := run_append_eq _ _ _ _ _ _ _ _ b12 e3
    have b14 := run_append_eq _ _ _ _ _ _ _ _ b13 e4
    have b15 := run_append_eq _ _ _ _ _ _ _ _ b14 e5
    rw [b15]
    rfl
  · with_unfolding_all rfl

/-- C9 witness: both sequences at concrete times with one scan per gap. -/
theorem C9_witness :
    ((∀ u ∈ [10], ticks_less (ticks_add 0 500) u = false)
      ∧ (∀ v ∈ [20], ticks_less (ticks_add 5 500) v = false))
    ∧ ((abTaipo.run initHands
        ([Ev.key 0 (InKey.taipo 0) true] ++ [10].map Ev.scan
          ++ [Ev.key 5 (InKey.taipo 1) true] ++ [20].map Ev.scan
          ++ [Ev.key 30 (InKey.taipo 1) false])).2
        = [OutEvent.tap_key (Kc.key "KEY_B")]
      ∧ (abTaipo.run initHands
          [Ev.key 0 (InKey.taipo 0) true, Ev.key 9 (InKey.taipo 0) false]).2
        = [OutEvent.tap_key (Kc.key "KEY_A")]) :=
  ⟨⟨by decide, by decide⟩,
   C9_theorem 0 5 30 0 9 [10] [20] (by decide) (by decide)⟩

/-! Claim C10 (confirmed): tick value 0 is the "no deadline pending"
sentinel. -/

set_option maxHeartbeats 1000000 in
/-- C10: when the press that arms a hand computes a deadline of exactly 0
(`ticks_add` wraps onto the modulus boundary), the periodic tick check treats
the hand as having no pending deadline: every subsequent scan is a no-op, the
hand's `hold` flag stays false, and the chord can only resolve as a tap at
release. -/
theorem C10_theorem (cfg : Taipo) (c a r : Nat) (ts : List Nat)
    (hc : c < 10)
    (ha : ticks_add a cfg.tap_timeout = 0)
    (hm : modsFor (cfg.determine_key (1 <<< (c % 10))) = []) :
    (cfg.run initHands
      ([Ev.key a (InKey.taipo c) true] ++ ts.map Ev.scan
        ++ [Ev.key r (InKey.taipo c) false])).2
      = [OutEvent.tap_key (cfg.determine_key (1 <<< (c % 10)))]
    ∧ (cfg.run initHands ([Ev.key a (InKey.taipo c) true] ++ ts.map Ev.scan)).1.s0.hold
      = false := by
  have hside : ¬ (c / 10 ≥ 1) := by omega
  have e1 : cfg.run initHands [Ev.key a (InKey.taipo c) true]
      = (⟨⟨1 <<< (c % 10), 0, Kc.NO, false, false⟩, State.reset⟩, []) := by
    simp only [Taipo.run, Taipo.step, Taipo.process_key, if_neg hside]
    simp [Taipo.press_action, initHands, State.reset, Nat.zero_or, ha]
  have e2 : cfg.run ⟨⟨1 <<< (c % 10), 0, Kc.NO, false, false⟩, State.reset⟩ (ts.map Ev.scan)
      = (⟨⟨1 <<< (c % 10), 0, Kc.NO, false, false⟩, State.reset⟩, []) :=
    run_scans _ _ _ (fun _ _ => tick_side_zero _ _ _ rfl)
      (fun _ _ => tick_side_zero _ _ _ rfl)
  have e3 : cfg.run ⟨⟨1 <<< (c % 10), 0, Kc.NO, false, false⟩, State.reset⟩
        [Ev.key r (InKey.taipo c) false]
      = (⟨State.reset, State.reset⟩,
         [OutEvent.tap_key (cfg.determine_key (1 <<< (c % 10)))]) := by
    simp only [Taipo.run, Taipo.step, Taipo.process_key, if_neg hside]
    have ht := handle_key_tap cfg (1 <<< (c % 10)) 0 (cfg.determine_key (1 <<< (c % 10))) hm
    simp [Taipo.release_action, ht]
  have b12 := run_append_eq _ _ _ _ _ _ _ _ e1 e2
  have b13 := run_append_eq _ _ _ _ _ _ _ _ b12 e3
  constructor
  · rw [b13]
    rfl
  · rw [b12]

/-- C10 witness: pressing actuator 4 at time `2^29 - 500` makes the computed
deadline wrap to exactly 0; scans at 10, `2^29 - 1` and 300 all skip the
hand, and the release taps `S`. -/
theorem C10_witness :
    ((4 : Nat) < 10
      ∧ ticks_add 536870412 taipoDefault.tap_timeout = 0
      ∧ modsFor (taipoDefault.determine_key (1 <<< (4 % 10))) = [])
    ∧ ((taipoDefault.run initHands
        ([Ev.key 536870412 (InKey.taipo 4) true] ++ [10, 536870911, 300].map Ev.scan
          ++ [Ev.key 700 (InKey.taipo 4) false])).2
        = [OutEvent.tap_key (taipoDefault.determine_key (1 <<< (4 % 10)))]
      ∧ (taipoDefault.run initHands
          ([Ev.key 536870412 (InKey.taipo 4) true]
            ++ [10, 536870911, 300].map Ev.scan)).1.s0.hold = false) :=
  ⟨⟨by decide, by decide, by decide⟩,
   C10_theorem taipoDefault 4 536870412 700 [10, 536870911, 300]
     (by decide) (by decide) (by decide)⟩
